import Mathlib

/-!
# Video transcoding API: dispatch service and AWS adapter

A shallow embedding of `service/transcode.go` (the two HTTP handlers
`newTranscodeJob` and `getTranscodeJob`) together with the parts of the
provider package that the handlers and `provider/aws_test.go` rely on.

Conventions of the embedding

* A Go `error` value is a pair of what the handlers can observe about it
  (its dynamic type, or its identity with the sentinel `db.ErrJobNotFound`)
  and the text returned by its `Error()` method.  A nil error is `none`.
* A Go function returning `(value, error)` whose value is only used when the
  error is nil is an `Except`: a collaborator that returns a nil error returns
  a usable value (a nil value next to a nil error, on which the handlers would
  dereference nil, is outside the embedding).  Where the handler also reads
  the value on the error path (the provider object printed in a message, the
  job written through a pointer by `SaveJob`), both components are kept.
* The collaborators that live outside the two source files (record store,
  provider factories, provider objects, JSON decoding) are parameters.
* Every handler returns, next to the Go triple `(int, interface{}, error)`,
  the state of the record store after the call and the list of collaborator
  calls it made, in order.
-/

namespace VideoTranscoding

/-! ## Data model -/

/-- Normalized job states: the constants `StatusQueued`, `StatusStarted`,
`StatusFinished`, `StatusFailed`, `StatusCanceled` of package `provider`. -/
inductive status where
  | StatusQueued
  | StatusStarted
  | StatusFinished
  | StatusFailed
  | StatusCanceled
  deriving DecidableEq, Repr

/-- The struct `provider.JobStatus`. -/
structure JobStatus where
  ProviderJobID : String
  Status : status
  ProviderName : String
  deriving DecidableEq, Repr

/-- The struct `db.Job`. -/
structure Job where
  ID : String
  ProviderName : String
  ProviderJobID : String
  deriving DecidableEq, Repr

/-- What the handlers can tell about an error value: whether it is the
sentinel `db.ErrJobNotFound` (tested with `==`), whether its dynamic type is
`provider.InvalidConfigError` or `provider.JobNotFoundError` (tested with a
type assertion), or none of these. -/
inductive ErrDyn where
  | ErrJobNotFound
  | InvalidConfigError
  | JobNotFoundError
  | other
  deriving DecidableEq, Repr

/-- A non-nil Go `error`: its observable kind and the text of `Error()`. -/
structure GoError where
  dyn : ErrDyn
  text : String
  deriving DecidableEq, Repr

/-- The error built by `fmt.Errorf` (no `%w` verb is used in the handlers):
a fresh error carrying the formatted text. -/
def Errorf (text : String) : GoError := ⟨ErrDyn.other, text⟩

/-- The interface `provider.TranscodingProvider`, as far as the handlers use it. -/
structure TranscodingProvider (Profile : Type) where
  Transcode : String → List Profile → Except GoError JobStatus
  JobStatus : String → Except GoError JobStatus

/-- Result of a `provider.Factory` call `(TranscodingProvider, error)`: with a
nil error the provider object, otherwise the error together with the returned
object, which the handlers print in their message. -/
inductive FactoryResult (Profile : Type) where
  | ok (providerObj : TranscodingProvider Profile)
  | fail (providerObj : Option (TranscodingProvider Profile)) (err : GoError)

/-- Result of `db.SaveJob(&job)`: the returned error, the job as left behind
the pointer, and the store afterwards. -/
structure SaveJobResult (Store : Type) where
  err : Option GoError
  job : Job
  store : Store

/-- The record store behind `s.db`. -/
structure JobRepository (Store : Type) where
  SaveJob : Store → Job → SaveJobResult Store
  GetJob : Store → String → Except GoError Job

/-- The struct `newTranscodeRequest`. -/
structure newTranscodeRequest (Profile : Type) where
  Source : String
  Profiles : List Profile
  Provider : String

/-- The receiver `TranscodingService`: configuration, record store and
provider registry (a nil map entry is `none`).  `fmtV` and `fmtS` are the
renderings by package `fmt` of a provider object under `%v` and `%s`. -/
structure TranscodingService (Config Store Profile : Type) where
  config : Config
  db : JobRepository Store
  providers : String → Option (Config → FactoryResult Profile)
  fmtV : Option (TranscodingProvider Profile) → String
  fmtS : Option (TranscodingProvider Profile) → String

/-- The values returned as `interface{}` payload. -/
inductive Payload where
  | stringMap (m : List (String × String))
  | jobStatus (js : JobStatus)
  deriving DecidableEq, Repr

/-- A collaborator call made by a handler. -/
inductive Call (Profile : Type) where
  | Factory (name : String)
  | Transcode (source : String) (profiles : List Profile)
  | JobStatus (providerJobID : String)
  | SaveJob (job : Job)
  | GetJob (id : String)

/-- What a handler returns: the Go triple, the store afterwards, the calls made. -/
structure Response (Store Profile : Type) where
  code : Nat
  payload : Option Payload
  err : Option GoError
  store : Store
  calls : List (Call Profile)

def StatusBadRequest : Nat := 400
def StatusNotFound : Nat := 404
def StatusInternalServerError : Nat := 500

/-! ## The handlers of `service/transcode.go` -/

section Handlers

variable {Config Store Profile : Type}

/-- The method `TranscodingService.newTranscodeJob`; `decoded` is the outcome of
`decoder.Decode(&reqObject)` on the request body. -/
def newTranscodeJob (s : TranscodingService Config Store Profile) (st : Store)
    (decoded : Except GoError (newTranscodeRequest Profile)) : Response Store Profile :=
  match decoded with
  | .error err =>
    ⟨StatusBadRequest, none, some (Errorf ("Error while parsing request: " ++ err.text)), st, []⟩
  | .ok reqObject =>
    if reqObject.Provider = "" then
      ⟨StatusBadRequest, none, some (Errorf "Missing provider from request"), st, []⟩
    else if reqObject.Source = "" then
      ⟨StatusBadRequest, none, some (Errorf "Missing source from request"), st, []⟩
    else if reqObject.Profiles.length = 0 then
      ⟨StatusBadRequest, none, some (Errorf "Missing profiles from request"), st, []⟩
    else
      match s.providers reqObject.Provider with
      | none =>
        ⟨StatusBadRequest, none,
          some (Errorf ("Unknown provider found in request: " ++ reqObject.Provider)), st, []⟩
      | some providerFactory =>
        match providerFactory s.config with
        | .fail providerObj err =>
          let statusCode :=
            if err.dyn = ErrDyn.InvalidConfigError then StatusBadRequest
            else StatusInternalServerError
          ⟨statusCode, none,
            some (Errorf ("Error initializing provider " ++ reqObject.Provider
              ++ " for new job: " ++ s.fmtV providerObj ++ " " ++ err.text)),
            st, [.Factory reqObject.Provider]⟩
        | .ok providerObj =>
          match providerObj.Transcode reqObject.Source reqObject.Profiles with
          | .error err =>
            let providerError :=
              Errorf ("Error with provider '" ++ reqObject.Provider ++ "': " ++ err.text)
            ⟨StatusInternalServerError, none, some providerError, st,
              [.Factory reqObject.Provider,
               .Transcode reqObject.Source reqObject.Profiles]⟩
          | .ok jobStatus0 =>
            let jobStatus : JobStatus := { jobStatus0 with ProviderName := reqObject.Provider }
            let job : Job :=
              { ID := "", ProviderName := jobStatus.ProviderName,
                ProviderJobID := jobStatus.ProviderJobID }
            let saved := s.db.SaveJob st job
            let calls : List (Call Profile) :=
              [.Factory reqObject.Provider,
               .Transcode reqObject.Source reqObject.Profiles, .SaveJob job]
            match saved.err with
            | some err => ⟨StatusInternalServerError, none, some err, saved.store, calls⟩
            | none =>
              ⟨200, some (.stringMap [("jobId", saved.job.ID)]), none, saved.store, calls⟩

/-- The method `TranscodingService.getTranscodeJob`; `jobID` is `mux.Vars(r)["jobId"]`. -/
def getTranscodeJob (s : TranscodingService Config Store Profile) (st : Store)
    (jobID : String) : Response Store Profile :=
  match s.db.GetJob st jobID with
  | .error err =>
    let statusCode :=
      if err.dyn = ErrDyn.ErrJobNotFound then StatusNotFound else StatusInternalServerError
    ⟨statusCode, none,
      some (Errorf ("Error retrieving job with id '" ++ jobID ++ "': " ++ err.text)),
      st, [.GetJob jobID]⟩
  | .ok job =>
    match s.providers job.ProviderName with
    | none =>
      ⟨StatusInternalServerError, none,
        some (Errorf ("Unknown provider '" ++ job.ProviderName ++ "' for job id '"
          ++ jobID ++ "'")),
        st, [.GetJob jobID]⟩
    | some providerFactory =>
      match providerFactory s.config with
      | .fail providerObj err =>
        ⟨StatusInternalServerError, none,
          some (Errorf ("Error initializing provider '" ++ job.ProviderName
            ++ "' on job id '" ++ jobID ++ "': " ++ s.fmtS providerObj ++ " " ++ err.text)),
          st, [.GetJob jobID, .Factory job.ProviderName]⟩
      | .ok providerObj =>
        match providerObj.JobStatus job.ProviderJobID with
        | .error err =>
          let providerError :=
            Errorf ("Error with provider '" ++ job.ProviderName
              ++ "' when trying to retrieve job id '" ++ jobID ++ "': " ++ err.text)
          let statusCode :=
            if err.dyn = ErrDyn.JobNotFoundError then StatusNotFound
            else StatusInternalServerError
          ⟨statusCode, none, some providerError, st,
            [.GetJob jobID, .Factory job.ProviderName, .JobStatus job.ProviderJobID]⟩
        | .ok jobStatus0 =>
          let jobStatus : JobStatus := { jobStatus0 with ProviderName := job.ProviderName }
          ⟨200, some (.jobStatus jobStatus), none, st,
            [.GetJob jobID, .Factory job.ProviderName, .JobStatus job.ProviderJobID]⟩

end Handlers

/-! ## A record store -/

/-- Modelled from the spec: the record store of package `db`, which is not
among the sources.  The spec describes it as a key-value record store keyed
by internal job ID, with get and put by key and a "not found" signal.  The
store is the list of saved records; `mint` chooses the ID of a new record and
`notFoundText` is the text of the sentinel `db.ErrJobNotFound`. -/
def memoryRepository (mint : List Job → String) (notFoundText : String) :
    JobRepository (List Job) where
  SaveJob := fun st job =>
    ⟨none, { job with ID := mint st }, { job with ID := mint st } :: st⟩
  GetJob := fun st id =>
    match st.find? (fun j => decide (j.ID = id)) with
    | some job => .ok job
    | none => .error ⟨ErrDyn.ErrJobNotFound, notFoundText⟩

/-! ## The AWS adapter -/

/-- Modelled from the spec: the method `awsProvider.statusMap` of
`provider/aws.go`, which is not among the sources (its test `TestAWSStatusMap`
is).  The spec gives the table `Submitted→queued`, `Progressing→started`,
`Canceled→canceled`, `Error→failed`, `Complete→finished`, anything
else→`failed`. -/
def statusMap (awsStatus : String) : status :=
  if awsStatus = "Submitted" then status.StatusQueued
  else if awsStatus = "Progressing" then status.StatusStarted
  else if awsStatus = "Canceled" then status.StatusCanceled
  else if awsStatus = "Error" then status.StatusFailed
  else if awsStatus = "Complete" then status.StatusFinished
  else status.StatusFailed

/-- The struct `config.ElasticTranscoder`, with the fields the test sets. -/
structure ElasticTranscoder where
  AccessKeyID : String
  SecretAccessKey : String
  Region : String
  PipelineID : String
  deriving DecidableEq, Repr

/-- The struct `elastictranscoder.JobInput`, with the field the test sets. -/
structure JobInput where
  Key : String
  deriving DecidableEq, Repr

/-- The struct `elastictranscoder.CreateJobOutput`, with the fields the test sets. -/
structure CreateJobOutput where
  PresetId : String
  Key : String
  deriving DecidableEq, Repr

/-- The struct `elastictranscoder.CreateJobInput`, with the fields the test sets. -/
structure CreateJobInput where
  PipelineId : String
  Input : JobInput
  Outputs : List CreateJobOutput
  deriving DecidableEq, Repr

/-- The job of an `elastictranscoder.CreateJobResponse`: its ID and raw status. -/
structure CreateJobResponse where
  Id : String
  Status : String
  deriving DecidableEq, Repr

/-- The struct `awsProvider` of the test: the configuration and the
job-creation operation `c.CreateJob` of the backend client. -/
structure awsProvider where
  config : ElasticTranscoder
  CreateJob : CreateJobInput → Except GoError CreateJobResponse

/-- File name of a key: the characters after its last `/` (the whole key when
it has none). -/
def sourceFile (source : List Char) : List Char :=
  (source.reverse.takeWhile (fun c => decide (c ≠ '/'))).reverse

/-- Directory of a key: the characters up to and including its last `/`
(nothing when it has none). -/
def sourceDir (source : List Char) : List Char :=
  (source.reverse.dropWhile (fun c => decide (c ≠ '/'))).reverse

/-- Modelled from the spec: the output key of a preset, computed in
`provider/aws.go`, which is not among the sources.  The spec derives it "by
inserting the profile identifier as a path segment between the source's
directory and file name". -/
def outputKey (source preset : String) : String :=
  ⟨sourceDir source.data ++ preset.data ++ '/' :: sourceFile source.data⟩

/-- Modelled from the spec: the method `awsProvider.TranscodeWithPresets` of
`provider/aws.go`, which is not among the sources (its tests `TestAWSTranscode`
and `TestAWSTranscodeAWSFailure` are).  The spec has it issue one job-creation
call carrying the pipeline identifier, the source key and the ordered list of
(profile identifier, derived output key) pairs; on success it returns the job
identifier of the backend and the normalized initial status, on a backend
error that error unmodified.  The first component lists the job-creation
calls issued. -/
def awsProvider.TranscodeWithPresets (p : awsProvider) (source : String)
    (presets : List String) : List CreateJobInput × Except GoError JobStatus :=
  let input : CreateJobInput :=
    { PipelineId := p.config.PipelineID
      Input := { Key := source }
      Outputs := presets.map (fun preset =>
        { PresetId := preset, Key := outputKey source preset }) }
  ([input],
    match p.CreateJob input with
    | .error err => .error err
    | .ok resp =>
      .ok { ProviderJobID := resp.Id, Status := statusMap resp.Status, ProviderName := "" })

/-! ## Concrete instances -/

/-- A provider whose submission fails for the source `fail.mp4` and whose
backend knows the single job `job-1`. -/
def sampleProvider : TranscodingProvider String where
  Transcode := fun source _ =>
    if source = "fail.mp4" then .error ⟨ErrDyn.other, "something went wrong"⟩
    else .ok ⟨"job-1", status.StatusQueued, ""⟩
  JobStatus := fun id =>
    if id = "job-1" then .ok ⟨id, status.StatusFinished, ""⟩
    else .error ⟨ErrDyn.JobNotFoundError, "job not found"⟩

/-- A factory that constructs `sampleProvider`. -/
def sampleFactory : Unit → FactoryResult String := fun _ => .ok sampleProvider

/-- A factory that rejects its configuration. -/
def invalidConfigFactory : Unit → FactoryResult String :=
  fun _ => .fail none ⟨ErrDyn.InvalidConfigError, "invalid configuration"⟩

/-- A factory that fails for another reason. -/
def brokenFactory : Unit → FactoryResult String :=
  fun _ => .fail none ⟨ErrDyn.other, "no route to host"⟩

/-- A service over the key-value record store with three registered providers. -/
def sampleService : TranscodingService Unit (List Job) String where
  config := ()
  db := memoryRepository (fun st => "id-" ++ toString st.length) "job not found"
  providers := fun name =>
    if name = "aws" then some sampleFactory
    else if name = "misconfigured" then some invalidConfigFactory
    else if name = "broken" then some brokenFactory
    else none
  fmtV := fun _ => "<nil>"
  fmtS := fun _ => "%!s(<nil>)"

/-- A store holding one record per provider name used in the instances. -/
def sampleStore : List Job :=
  [⟨"id-0", "aws", "job-1"⟩, ⟨"id-1", "misconfigured", "job-2"⟩,
   ⟨"id-2", "retired", "job-3"⟩, ⟨"id-3", "broken", "job-4"⟩]

/-- A service over the key-value record store whose registry is empty. -/
def retiredService : TranscodingService Unit (List Job) String where
  config := ()
  db := memoryRepository (fun st => "id-" ++ toString st.length) "job not found"
  providers := fun _ => none
  fmtV := fun _ => "<nil>"
  fmtS := fun _ => "%!s(<nil>)"

/-- A store whose single record has an empty provider name. -/
def unnamedStore : List Job := [⟨"id-4", "", "job-5"⟩]

/-- The provider of `TestAWSTranscode`, over a backend that accepts every job. -/
def sampleAWS : awsProvider where
  config := ⟨"AKIA", "secret", "sa-east-1", "mypipeline"⟩
  CreateJob := fun _ => .ok ⟨"job-12345678", "Submitted"⟩

/-- A create-job request for the two presets of `TestAWSTranscode`. -/
def sampleRequest (providerName source : String) : newTranscodeRequest String :=
  ⟨source, ["93239832-0001", "93239832-0002"], providerName⟩

/-! ## Statements about `newTranscodeJob` -/

section NewJob

variable {Config Store Profile : Type}

/-- C1: a decoded create-job request with a missing field is rejected with
status 400 and a message naming the first missing field, in the order provider,
source, profiles; the three messages are pairwise distinct; in each case the
handler calls no collaborator (no factory, no `SaveJob`) and leaves the record
store as it was. -/
theorem newTranscodeJob_missing_field (s : TranscodingService Config Store Profile)
    (st : Store) (reqObject : newTranscodeRequest Profile) :
    (reqObject.Provider = "" →
      (newTranscodeJob s st (.ok reqObject)).code = 400 ∧
      (newTranscodeJob s st (.ok reqObject)).err = some (Errorf "Missing provider from request") ∧
      (newTranscodeJob s st (.ok reqObject)).payload = none ∧
      (newTranscodeJob s st (.ok reqObject)).calls = [] ∧
      (newTranscodeJob s st (.ok reqObject)).store = st) ∧
    (reqObject.Provider ≠ "" → reqObject.Source = "" →
      (newTranscodeJob s st (.ok reqObject)).code = 400 ∧
      (newTranscodeJob s st (.ok reqObject)).err = some (Errorf "Missing source from request") ∧
      (newTranscodeJob s st (.ok reqObject)).payload = none ∧
      (newTranscodeJob s st (.ok reqObject)).calls = [] ∧
      (newTranscodeJob s st (.ok reqObject)).store = st) ∧
    (reqObject.Provider ≠ "" → reqObject.Source ≠ "" → reqObject.Profiles = [] →
      (newTranscodeJob s st (.ok reqObject)).code = 400 ∧
      (newTranscodeJob s st (.ok reqObject)).err = some (Errorf "Missing profiles from request") ∧
      (newTranscodeJob s st (.ok reqObject)).payload = none ∧
      (newTranscodeJob s st (.ok reqObject)).calls = [] ∧
      (newTranscodeJob s st (.ok reqObject)).store = st) ∧
    (Errorf "Missing provider from request").text ≠ (Errorf "Missing source from request").text ∧
    (Errorf "Missing provider from request").text ≠ (Errorf "Missing profiles from request").text ∧
    (Errorf "Missing source from request").text ≠ (Errorf "Missing profiles from request").text := by
  refine ⟨?_, ?_, ?_, ?_, ?_, ?_⟩
  · intro hp
    simp [newTranscodeJob, hp, StatusBadRequest]
  · intro hp hs
    simp [newTranscodeJob, hp, hs, StatusBadRequest]
  · intro hp hs hpr
    simp [newTranscodeJob, hp, hs, hpr, StatusBadRequest]
  · simp [Errorf]
  · simp [Errorf]
  · simp [Errorf]

/-- C2: for a request that passes field validation, an unregistered provider
name gives 400, a factory failure of type `provider.InvalidConfigError` gives
400 and any other factory failure gives 500; in all three cases the calls made
are at most the factory call (so neither `Transcode` nor `SaveJob` is called)
and the record store is unchanged. -/
theorem newTranscodeJob_provider_failure (s : TranscodingService Config Store Profile)
    (st : Store) (reqObject : newTranscodeRequest Profile)
    (hp : reqObject.Provider ≠ "") (hs : reqObject.Source ≠ "")
    (hpr : reqObject.Profiles ≠ []) :
    (s.providers reqObject.Provider = none →
      (newTranscodeJob s st (.ok reqObject)).code = 400 ∧
      (newTranscodeJob s st (.ok reqObject)).calls = [] ∧
      (newTranscodeJob s st (.ok reqObject)).store = st) ∧
    (∀ providerFactory providerObj err,
      s.providers reqObject.Provider = some providerFactory →
      providerFactory s.config = .fail providerObj err →
      (err.dyn = ErrDyn.InvalidConfigError →
        (newTranscodeJob s st (.ok reqObject)).code = 400) ∧
      (err.dyn ≠ ErrDyn.InvalidConfigError →
        (newTranscodeJob s st (.ok reqObject)).code = 500) ∧
      (newTranscodeJob s st (.ok reqObject)).calls = [.Factory reqObject.Provider] ∧
      (newTranscodeJob s st (.ok reqObject)).store = st) := by
  refine ⟨?_, ?_⟩
  · intro hnone
    simp [newTranscodeJob, hp, hs, hpr, hnone, StatusBadRequest]
  · intro providerFactory providerObj err hf hfail
    refine ⟨?_, ?_, ?_, ?_⟩
    · intro hdyn
      simp [newTranscodeJob, hp, hs, hpr, hf, hfail, hdyn, StatusBadRequest]
    · intro hdyn
      simp [newTranscodeJob, hp, hs, hpr, hf, hfail, hdyn, StatusInternalServerError]
    · simp [newTranscodeJob, hp, hs, hpr, hf, hfail]
    · simp [newTranscodeJob, hp, hs, hpr, hf, hfail]

/-- C3: for a valid request whose provider is constructed, a `Transcode`
error `e` gives status 500, a nil payload and an error whose text contains
the provider name of the request and the text of `e`; the calls made are the
factory call and `Transcode` only (no `SaveJob`) and the store is unchanged. -/
theorem newTranscodeJob_transcode_error (s : TranscodingService Config Store Profile)
    (st : Store) (reqObject : newTranscodeRequest Profile)
    (providerFactory : Config → FactoryResult Profile)
    (providerObj : TranscodingProvider Profile) (e : GoError)
    (hp : reqObject.Provider ≠ "") (hs : reqObject.Source ≠ "")
    (hpr : reqObject.Profiles ≠ [])
    (hf : s.providers reqObject.Provider = some providerFactory)
    (hok : providerFactory s.config = .ok providerObj)
    (herr : providerObj.Transcode reqObject.Source reqObject.Profiles = .error e) :
    (newTranscodeJob s st (.ok reqObject)).code = 500 ∧
    (newTranscodeJob s st (.ok reqObject)).payload = none ∧
    (∃ providerError, (newTranscodeJob s st (.ok reqObject)).err = some providerError ∧
      reqObject.Provider.data <:+: providerError.text.data ∧
      e.text.data <:+: providerError.text.data) ∧
    (newTranscodeJob s st (.ok reqObject)).calls =
      [.Factory reqObject.Provider, .Transcode reqObject.Source reqObject.Profiles] ∧
    (newTranscodeJob s st (.ok reqObject)).store = st := by
  refine ⟨?_, ?_, ?_, ?_, ?_⟩
  · simp [newTranscodeJob, hp, hs, hpr, hf, hok, herr, StatusInternalServerError]
  · simp [newTranscodeJob, hp, hs, hpr, hf, hok, herr]
  · refine ⟨Errorf ("Error with provider '" ++ reqObject.Provider ++ "': " ++ e.text), ?_, ?_, ?_⟩
    · simp [newTranscodeJob, hp, hs, hpr, hf, hok, herr]
    · refine ⟨"Error with provider '".data, ("': " ++ e.text).data, ?_⟩
      simp [Errorf, String.data_append, List.append_assoc]
    · refine ⟨("Error with provider '" ++ reqObject.Provider ++ "': ").data, [], ?_⟩
      simp [Errorf, String.data_append, List.append_assoc]
  · simp [newTranscodeJob, hp, hs, hpr, hf, hok, herr]
  · simp [newTranscodeJob, hp, hs, hpr, hf, hok, herr]

/-- C4: for a valid request whose provider is constructed and whose `Transcode`
succeeds with provider job ID `j`, the handler calls `SaveJob` exactly once, on
the record with the provider name of the request and provider job ID `j`; if
`SaveJob` fails the result is status 500 with that very error, and if it
succeeds the result is status 200, a nil error and the payload mapping
`jobId` to the ID of the saved record. -/
theorem newTranscodeJob_saves_job (s : TranscodingService Config Store Profile)
    (st : Store) (reqObject : newTranscodeRequest Profile)
    (providerFactory : Config → FactoryResult Profile)
    (providerObj : TranscodingProvider Profile) (jobStatus : JobStatus)
    (hp : reqObject.Provider ≠ "") (hs : reqObject.Source ≠ "")
    (hpr : reqObject.Profiles ≠ [])
    (hf : s.providers reqObject.Provider = some providerFactory)
    (hok : providerFactory s.config = .ok providerObj)
    (hsub : providerObj.Transcode reqObject.Source reqObject.Profiles = .ok jobStatus) :
    (newTranscodeJob s st (.ok reqObject)).calls =
      [.Factory reqObject.Provider, .Transcode reqObject.Source reqObject.Profiles,
       .SaveJob ⟨"", reqObject.Provider, jobStatus.ProviderJobID⟩] ∧
    (newTranscodeJob s st (.ok reqObject)).store =
      (s.db.SaveJob st ⟨"", reqObject.Provider, jobStatus.ProviderJobID⟩).store ∧
    (∀ e, (s.db.SaveJob st ⟨"", reqObject.Provider, jobStatus.ProviderJobID⟩).err = some e →
      (newTranscodeJob s st (.ok reqObject)).code = 500 ∧
      (newTranscodeJob s st (.ok reqObject)).payload = none ∧
      (newTranscodeJob s st (.ok reqObject)).err = some e) ∧
    ((s.db.SaveJob st ⟨"", reqObject.Provider, jobStatus.ProviderJobID⟩).err = none →
      (newTranscodeJob s st (.ok reqObject)).code = 200 ∧
      (newTranscodeJob s st (.ok reqObject)).payload =
        some (.stringMap [("jobId",
          (s.db.SaveJob st ⟨"", reqObject.Provider, jobStatus.ProviderJobID⟩).job.ID)]) ∧
      (newTranscodeJob s st (.ok reqObject)).err = none) := by
  refine ⟨?_, ?_, ?_, ?_⟩
  · simp only [newTranscodeJob, hp, hs, hpr, hf, hok, hsub, List.length_eq_zero, if_false]
    split <;> rfl
  · simp only [newTranscodeJob, hp, hs, hpr, hf, hok, hsub, List.length_eq_zero, if_false]
    split <;> rfl
  · intro e he
    simp only [newTranscodeJob, hp, hs, hpr, hf, hok, hsub, List.length_eq_zero, if_false, he]
    simp [StatusInternalServerError]
  · intro he
    simp only [newTranscodeJob, hp, hs, hpr, hf, hok, hsub, List.length_eq_zero, if_false, he]
    simp

end NewJob

/-! ## Statements about `getTranscodeJob` -/

section GetJob

variable {Config Store Profile : Type}

/-- C5: `getTranscodeJob` returns 404 exactly when the record lookup fails with
`db.ErrJobNotFound`, or the record is found, its provider is resolved and
constructed, and `JobStatus` fails with an error of type
`provider.JobNotFoundError`; any other lookup error and any other `JobStatus`
error gives 500; and on the key-value record store a query for an ID that was
never written gives 404. -/
theorem getTranscodeJob_not_found_iff (s : TranscodingService Config Store Profile)
    (st : Store) (jobID : String) :
    ((getTranscodeJob s st jobID).code = 404 ↔
      ((∃ err, s.db.GetJob st jobID = .error err ∧ err.dyn = ErrDyn.ErrJobNotFound) ∨
       (∃ job providerFactory providerObj err,
          s.db.GetJob st jobID = .ok job ∧
          s.providers job.ProviderName = some providerFactory ∧
          providerFactory s.config = .ok providerObj ∧
          providerObj.JobStatus job.ProviderJobID = .error err ∧
          err.dyn = ErrDyn.JobNotFoundError))) ∧
    (∀ err, s.db.GetJob st jobID = .error err → err.dyn ≠ ErrDyn.ErrJobNotFound →
      (getTranscodeJob s st jobID).code = 500) ∧
    (∀ job providerFactory providerObj err,
      s.db.GetJob st jobID = .ok job →
      s.providers job.ProviderName = some providerFactory →
      providerFactory s.config = .ok providerObj →
      providerObj.JobStatus job.ProviderJobID = .error err →
      err.dyn ≠ ErrDyn.JobNotFoundError →
      (getTranscodeJob s st jobID).code = 500) ∧
    (∀ (t : TranscodingService Config (List Job) Profile) (mint : List Job → String)
      (notFoundText : String) (jobs : List Job),
      t.db = memoryRepository mint notFoundText → (∀ j ∈ jobs, j.ID ≠ jobID) →
      (getTranscodeJob t jobs jobID).code = 404 ∧
      (getTranscodeJob t jobs jobID).code ≠ 500) := by
  refine ⟨?_, ?_, ?_, ?_⟩
  · unfold getTranscodeJob
    cases hg : s.db.GetJob st jobID with
    | error err =>
      by_cases hd : err.dyn = ErrDyn.ErrJobNotFound <;>
        simp [hd, StatusNotFound, StatusInternalServerError]
    | ok job =>
      cases hf : s.providers job.ProviderName with
      | none => simp [hf, StatusInternalServerError]
      | some providerFactory =>
        cases hc : providerFactory s.config with
        | fail providerObj err => simp [hf, hc, StatusInternalServerError]
        | ok providerObj =>
          cases hj : providerObj.JobStatus job.ProviderJobID with
          | error err =>
            by_cases hd : err.dyn = ErrDyn.JobNotFoundError <;>
              simp [hf, hc, hj, hd, StatusNotFound, StatusInternalServerError]
          | ok jobStatus => simp [hf, hc, hj]
  · intro err hg hd
    simp [getTranscodeJob, hg, hd, StatusInternalServerError]
  · intro job providerFactory providerObj err hg hf hc hj hd
    simp [getTranscodeJob, hg, hf, hc, hj, hd, StatusInternalServerError]
  · intro t mint notFoundText jobs hdb hnever
    have hfind : jobs.find? (fun j => decide (j.ID = jobID)) = none := by
      rw [List.find?_eq_none]
      intro j hj
      simpa using hnever j hj
    simp [getTranscodeJob, hdb, memoryRepository, hfind, StatusNotFound]

/-- C6 (as the code has it): in query job, for every stored record (whatever
its provider name, the empty one included), a provider name with no factory in
the registry and every construction error, `provider.InvalidConfigError`
included, are surfaced as a server error (500).  For the same registry,
configuration and provider name, and any create-job request that passes field
validation, `getTranscodeJob` and `newTranscodeJob` return the same status
code for a construction failure exactly when the error of the factory is not
of type `provider.InvalidConfigError`, and different ones (500 and 400) for a
provider name without a factory. -/
theorem getTranscodeJob_provider_failure (s : TranscodingService Config Store Profile)
    (st : Store) (jobID : String) (job : Job)
    (hg : s.db.GetJob st jobID = .ok job) :
    (s.providers job.ProviderName = none →
      (getTranscodeJob s st jobID).code = 500 ∧
      (getTranscodeJob s st jobID).payload = none ∧
      (getTranscodeJob s st jobID).err ≠ none ∧
      (∀ reqObject : newTranscodeRequest Profile,
        reqObject.Provider = job.ProviderName → reqObject.Provider ≠ "" →
        reqObject.Source ≠ "" → reqObject.Profiles ≠ [] →
        (newTranscodeJob s st (.ok reqObject)).code = 400 ∧
        (getTranscodeJob s st jobID).code ≠ (newTranscodeJob s st (.ok reqObject)).code)) ∧
    (∀ providerFactory providerObj err,
      s.providers job.ProviderName = some providerFactory →
      providerFactory s.config = .fail providerObj err →
      (getTranscodeJob s st jobID).code = 500 ∧
      (getTranscodeJob s st jobID).payload = none ∧
      (getTranscodeJob s st jobID).err ≠ none ∧
      (∀ reqObject : newTranscodeRequest Profile,
        reqObject.Provider = job.ProviderName → reqObject.Provider ≠ "" →
        reqObject.Source ≠ "" → reqObject.Profiles ≠ [] →
        ((err.dyn = ErrDyn.InvalidConfigError →
            (newTranscodeJob s st (.ok reqObject)).code = 400) ∧
         (err.dyn ≠ ErrDyn.InvalidConfigError →
            (newTranscodeJob s st (.ok reqObject)).code = 500) ∧
         ((getTranscodeJob s st jobID).code = (newTranscodeJob s st (.ok reqObject)).code ↔
            err.dyn ≠ ErrDyn.InvalidConfigError)))) := by
  refine ⟨?_, ?_⟩
  · intro hnone
    have hget : (getTranscodeJob s st jobID).code = 500 := by
      simp [getTranscodeJob, hg, hnone, StatusInternalServerError]
    refine ⟨hget, ?_, ?_, ?_⟩
    · simp [getTranscodeJob, hg, hnone]
    · simp [getTranscodeJob, hg, hnone]
    · intro reqObject hname hp hs hpr
      have hnone2 : s.providers reqObject.Provider = none := by rw [hname]; exact hnone
      have hnew : (newTranscodeJob s st (.ok reqObject)).code = 400 := by
        simp [newTranscodeJob, hp, hs, hpr, hnone2, StatusBadRequest]
      refine ⟨hnew, ?_⟩
      rw [hget, hnew]
      decide
  · intro providerFactory providerObj err hf hc
    have hget : (getTranscodeJob s st jobID).code = 500 := by
      simp [getTranscodeJob, hg, hf, hc, StatusInternalServerError]
    refine ⟨hget, ?_, ?_, ?_⟩
    · simp [getTranscodeJob, hg, hf, hc]
    · simp [getTranscodeJob, hg, hf, hc]
    · intro reqObject hname hp hs hpr
      have hf2 : s.providers reqObject.Provider = some providerFactory := by
        rw [hname]; exact hf
      refine ⟨?_, ?_, ?_⟩
      · intro hd
        simp [newTranscodeJob, hp, hs, hpr, hf2, hc, hd, StatusBadRequest]
      · intro hd
        simp [newTranscodeJob, hp, hs, hpr, hf2, hc, hd, StatusInternalServerError]
      · rw [hget]
        by_cases hd : err.dyn = ErrDyn.InvalidConfigError <;>
          simp [newTranscodeJob, hp, hs, hpr, hf2, hc, hd,
            StatusInternalServerError, StatusBadRequest]

/-- C7: for a query whose record is found and whose provider is constructed,
the handler calls `JobStatus` once, with the provider job ID of the stored
record; when that call succeeds with `st0` the handler returns 200, a nil
error and `st0` with `ProviderName` set to the provider name of the stored
record, `ProviderJobID` and `Status` being those of `st0`. -/
theorem getTranscodeJob_success (s : TranscodingService Config Store Profile)
    (st : Store) (jobID : String) (job : Job)
    (providerFactory : Config → FactoryResult Profile)
    (providerObj : TranscodingProvider Profile)
    (hg : s.db.GetJob st jobID = .ok job)
    (hf : s.providers job.ProviderName = some providerFactory)
    (hc : providerFactory s.config = .ok providerObj) :
    (getTranscodeJob s st jobID).calls =
      [.GetJob jobID, .Factory job.ProviderName, .JobStatus job.ProviderJobID] ∧
    (∀ st0, providerObj.JobStatus job.ProviderJobID = .ok st0 →
      (getTranscodeJob s st jobID).code = 200 ∧
      (getTranscodeJob s st jobID).err = none ∧
      (getTranscodeJob s st jobID).payload =
        some (.jobStatus ⟨st0.ProviderJobID, st0.Status, job.ProviderName⟩)) := by
  refine ⟨?_, ?_⟩
  · simp only [getTranscodeJob, hg, hf, hc]
    split <;> rfl
  · intro st0 hj
    simp [getTranscodeJob, hg, hf, hc, hj]

/-- C10: in both handlers the returned error is nil exactly when the status
code is 200, a non-nil error comes with a nil payload, and the status code of
`newTranscodeJob` is one of 200, 400, 500 and that of `getTranscodeJob` one of
200, 404, 500. -/
theorem handlers_never_downgrade_errors (s : TranscodingService Config Store Profile)
    (st : Store) (decoded : Except GoError (newTranscodeRequest Profile)) (jobID : String) :
    (((newTranscodeJob s st decoded).err = none ↔ (newTranscodeJob s st decoded).code = 200) ∧
     ((newTranscodeJob s st decoded).err ≠ none → (newTranscodeJob s st decoded).payload = none) ∧
     ((newTranscodeJob s st decoded).code = 200 ∨ (newTranscodeJob s st decoded).code = 400 ∨
      (newTranscodeJob s st decoded).code = 500)) ∧
    (((getTranscodeJob s st jobID).err = none ↔ (getTranscodeJob s st jobID).code = 200) ∧
     ((getTranscodeJob s st jobID).err ≠ none → (getTranscodeJob s st jobID).payload = none) ∧
     ((getTranscodeJob s st jobID).code = 200 ∨ (getTranscodeJob s st jobID).code = 404 ∨
      (getTranscodeJob s st jobID).code = 500)) := by
  refine ⟨?_, ?_⟩
  · unfold newTranscodeJob
    cases decoded with
    | error err => simp [StatusBadRequest]
    | ok reqObject =>
      by_cases hp : reqObject.Provider = ""
      · simp [hp, StatusBadRequest]
      by_cases hs : reqObject.Source = ""
      · simp [hp, hs, StatusBadRequest]
      by_cases hpr : reqObject.Profiles = []
      · simp [hp, hs, hpr, StatusBadRequest]
      cases hf : s.providers reqObject.Provider with
      | none => simp [hp, hs, hpr, hf, StatusBadRequest]
      | some providerFactory =>
        cases hc : providerFactory s.config with
        | fail providerObj err =>
          by_cases hd : err.dyn = ErrDyn.InvalidConfigError <;>
            simp [hp, hs, hpr, hf, hc, hd, StatusBadRequest, StatusInternalServerError]
        | ok providerObj =>
          cases hj : providerObj.Transcode reqObject.Source reqObject.Profiles with
          | error err => simp [hp, hs, hpr, hf, hc, hj, StatusInternalServerError]
          | ok jobStatus =>
            cases hsv : (s.db.SaveJob st
                ⟨"", reqObject.Provider, jobStatus.ProviderJobID⟩).err with
            | none => simp [hp, hs, hpr, hf, hc, hj, hsv]
            | some err => simp [hp, hs, hpr, hf, hc, hj, hsv, StatusInternalServerError]
  · unfold getTranscodeJob
    cases hg : s.db.GetJob st jobID with
    | error err =>
      by_cases hd : err.dyn = ErrDyn.ErrJobNotFound <;>
        simp [hd, StatusNotFound, StatusInternalServerError]
    | ok job =>
      cases hf : s.providers job.ProviderName with
      | none => simp [hf, StatusInternalServerError]
      | some providerFactory =>
        cases hc : providerFactory s.config with
        | fail providerObj err => simp [hf, hc, StatusInternalServerError]
        | ok providerObj =>
          cases hj : providerObj.JobStatus job.ProviderJobID with
          | error err =>
            by_cases hd : err.dyn = ErrDyn.JobNotFoundError <;>
              simp [hf, hc, hj, hd, StatusNotFound, StatusInternalServerError]
          | ok jobStatus => simp [hf, hc, hj]

end GetJob

/-! ## Statements about the AWS adapter -/

section AWS

/-- C8: `statusMap` is a total function into the normalized enumeration that
sends `Submitted` to queued, `Progressing` to started, `Canceled` to canceled,
`Error` to failed, `Complete` to finished and every other string (such as
`unknown`) to failed; so only `Complete` is sent to finished. -/
theorem statusMap_table :
    statusMap "Submitted" = status.StatusQueued ∧
    statusMap "Progressing" = status.StatusStarted ∧
    statusMap "Canceled" = status.StatusCanceled ∧
    statusMap "Error" = status.StatusFailed ∧
    statusMap "Complete" = status.StatusFinished ∧
    statusMap "unknown" = status.StatusFailed ∧
    (∀ s : String, s ≠ "Submitted" → s ≠ "Progressing" → s ≠ "Canceled" → s ≠ "Error" →
      s ≠ "Complete" → statusMap s = status.StatusFailed) ∧
    (∀ s : String, statusMap s = status.StatusFinished → s = "Complete") := by
  refine ⟨by decide, by decide, by decide, by decide, by decide, by decide, ?_, ?_⟩
  · intro s h1 h2 h3 h4 h5
    simp [statusMap, h1, h2, h3, h4, h5]
  · intro s h
    unfold statusMap at h
    split_ifs at h with h1 h2 h3 h4 h5
    exact h5

/-- Taking the longest run of characters that satisfy `p` from a list that
starts with such a run followed by a character that does not satisfy `p`. -/
theorem takeWhile_run (p : Char → Bool) (run rest : List Char) (c : Char)
    (hrun : ∀ x ∈ run, p x = true) (hc : p c = false) :
    (run ++ c :: rest).takeWhile p = run := by
  induction run with
  | nil => simp [List.takeWhile, hc]
  | cons a t ih =>
    have ha : p a = true := hrun a (List.mem_cons_self a t)
    have ht : ∀ x ∈ t, p x = true := fun x hx => hrun x (List.mem_cons_of_mem a hx)
    simp [List.takeWhile, ha, ih ht]

/-- Dropping the longest run of characters that satisfy `p` from a list that
starts with such a run followed by a character that does not satisfy `p`. -/
theorem dropWhile_run (p : Char → Bool) (run rest : List Char) (c : Char)
    (hrun : ∀ x ∈ run, p x = true) (hc : p c = false) :
    (run ++ c :: rest).dropWhile p = c :: rest := by
  induction run with
  | nil => simp [List.dropWhile, hc]
  | cons a t ih =>
    have ha : p a = true := hrun a (List.mem_cons_self a t)
    have ht : ∀ x ∈ t, p x = true := fun x hx => hrun x (List.mem_cons_of_mem a hx)
    simp [List.dropWhile, ha, ih ht]

/-- The file name of `dir/file` is `file` when `file` has no `/`. -/
theorem sourceFile_dir_file (dir file : List Char) (hfile : '/' ∉ file) :
    sourceFile (dir ++ '/' :: file) = file := by
  have hrun : ∀ x ∈ file.reverse, (fun c => decide (c ≠ '/')) x = true := by
    intro x hx
    have hx2 : x ∈ file := List.mem_reverse.mp hx
    have : x ≠ '/' := fun h => hfile (h ▸ hx2)
    simpa using this
  have hrev : (dir ++ '/' :: file).reverse = file.reverse ++ '/' :: dir.reverse := by
    simp
  unfold sourceFile
  rw [hrev, takeWhile_run _ _ _ _ hrun (by simp)]
  simp

/-- The directory of `dir/file` is `dir/` when `file` has no `/`. -/
theorem sourceDir_dir_file (dir file : List Char) (hfile : '/' ∉ file) :
    sourceDir (dir ++ '/' :: file) = dir ++ ['/'] := by
  have hrun : ∀ x ∈ file.reverse, (fun c => decide (c ≠ '/')) x = true := by
    intro x hx
    have hx2 : x ∈ file := List.mem_reverse.mp hx
    have : x ≠ '/' := fun h => hfile (h ▸ hx2)
    simpa using this
  have hrev : (dir ++ '/' :: file).reverse = file.reverse ++ '/' :: dir.reverse := by
    simp
  unfold sourceDir
  rw [hrev, dropWhile_run _ _ _ _ hrun (by simp)]
  simp

/-- The output key of preset `preset` for the source `dir/file` is
`dir/preset/file` when `file` has no `/`. -/
theorem outputKey_dir_file (dir file preset : String) (hfile : '/' ∉ file.data) :
    outputKey (dir ++ "/" ++ file) preset = dir ++ "/" ++ preset ++ "/" ++ file := by
  have hdata : (dir ++ "/" ++ file).data = dir.data ++ '/' :: file.data := by
    simp [String.data_append]
  apply String.ext
  unfold outputKey
  rw [hdata, sourceDir_dir_file _ _ hfile, sourceFile_dir_file _ _ hfile]
  simp [String.data_append]

/-- C9: for a source key `dir/file` (where `file` has no `/`) and an ordered
list of presets, `TranscodeWithPresets` issues exactly one job-creation call;
it carries the configured pipeline ID, the source as input key, and one output
per preset, in the order of the list, with that preset ID and the output key
`dir/preset/file`. -/
theorem TranscodeWithPresets_job_input (p : awsProvider) (dir file : String)
    (presets : List String) (hfile : '/' ∉ file.data) (hne : presets ≠ []) :
    (p.TranscodeWithPresets (dir ++ "/" ++ file) presets).1 =
      [{ PipelineId := p.config.PipelineID
         Input := { Key := dir ++ "/" ++ file }
         Outputs := presets.map (fun preset =>
           { PresetId := preset, Key := dir ++ "/" ++ preset ++ "/" ++ file }) }] ∧
    (∀ input ∈ (p.TranscodeWithPresets (dir ++ "/" ++ file) presets).1,
      input.Outputs.length = presets.length ∧ 0 < input.Outputs.length) := by
  have hkeys : presets.map (fun preset =>
        ({ PresetId := preset, Key := outputKey (dir ++ "/" ++ file) preset } : CreateJobOutput))
      = presets.map (fun preset =>
        ({ PresetId := preset, Key := dir ++ "/" ++ preset ++ "/" ++ file } : CreateJobOutput)) := by
    apply List.map_congr_left
    intro preset _
    rw [outputKey_dir_file dir file preset hfile]
  refine ⟨?_, ?_⟩
  · simp only [awsProvider.TranscodeWithPresets, hkeys]
  · intro input hin
    simp only [awsProvider.TranscodeWithPresets, List.mem_singleton] at hin
    subst hin
    simp [List.length_pos, hne]

end AWS

/-! ## The statements at concrete inputs -/

section Instances

/-- Instance of C2: a request naming the provider whose factory rejects its
configuration is answered with 400 after the factory call alone. -/
theorem newTranscodeJob_provider_failure_witness :
    ("misconfigured" ≠ "" ∧ "dir/file.mp4" ≠ "") ∧
    (newTranscodeJob sampleService sampleStore
      (.ok (sampleRequest "misconfigured" "dir/file.mp4"))).code = 400 ∧
    (newTranscodeJob sampleService sampleStore
      (.ok (sampleRequest "misconfigured" "dir/file.mp4"))).calls = [.Factory "misconfigured"] :=
  ⟨⟨by decide, by decide⟩,
   ((newTranscodeJob_provider_failure sampleService sampleStore
      (sampleRequest "misconfigured" "dir/file.mp4") (by decide) (by decide) (by decide)).2
      invalidConfigFactory none ⟨ErrDyn.InvalidConfigError, "invalid configuration"⟩
      rfl rfl).1 rfl,
   ((newTranscodeJob_provider_failure sampleService sampleStore
      (sampleRequest "misconfigured" "dir/file.mp4") (by decide) (by decide) (by decide)).2
      invalidConfigFactory none ⟨ErrDyn.InvalidConfigError, "invalid configuration"⟩
      rfl rfl).2.2.1⟩

/-- Instance of C3: a submission that fails at the backend is answered with
500 and a nil payload, and the store is left as it was. -/
theorem newTranscodeJob_transcode_error_witness :
    sampleProvider.Transcode "fail.mp4" ["93239832-0001", "93239832-0002"]
      = .error ⟨ErrDyn.other, "something went wrong"⟩ ∧
    (newTranscodeJob sampleService sampleStore (.ok (sampleRequest "aws" "fail.mp4"))).code = 500 ∧
    (newTranscodeJob sampleService sampleStore (.ok (sampleRequest "aws" "fail.mp4"))).payload
      = none ∧
    (newTranscodeJob sampleService sampleStore (.ok (sampleRequest "aws" "fail.mp4"))).store
      = sampleStore :=
  ⟨rfl,
   (newTranscodeJob_transcode_error sampleService sampleStore (sampleRequest "aws" "fail.mp4")
      sampleFactory sampleProvider ⟨ErrDyn.other, "something went wrong"⟩
      (by decide) (by decide) (by decide) rfl rfl rfl).1,
   (newTranscodeJob_transcode_error sampleService sampleStore (sampleRequest "aws" "fail.mp4")
      sampleFactory sampleProvider ⟨ErrDyn.other, "something went wrong"⟩
      (by decide) (by decide) (by decide) rfl rfl rfl).2.1,
   (newTranscodeJob_transcode_error sampleService sampleStore (sampleRequest "aws" "fail.mp4")
      sampleFactory sampleProvider ⟨ErrDyn.other, "something went wrong"⟩
      (by decide) (by decide) (by decide) rfl rfl rfl).2.2.2.2⟩

/-- Instance of C4: a successful submission is answered with 200 and the ID
under which the record was saved, and the record is in the store afterwards. -/
theorem newTranscodeJob_saves_job_witness :
    (sampleService.db.SaveJob sampleStore ⟨"", "aws", "job-1"⟩).err = none ∧
    (newTranscodeJob sampleService sampleStore
      (.ok (sampleRequest "aws" "dir/file.mp4"))).code = 200 ∧
    (newTranscodeJob sampleService sampleStore
      (.ok (sampleRequest "aws" "dir/file.mp4"))).payload
      = some (.stringMap [("jobId",
          (sampleService.db.SaveJob sampleStore ⟨"", "aws", "job-1"⟩).job.ID)]) :=
  ⟨rfl,
   ((newTranscodeJob_saves_job sampleService sampleStore (sampleRequest "aws" "dir/file.mp4")
      sampleFactory sampleProvider ⟨"job-1", status.StatusQueued, ""⟩
      (by decide) (by decide) (by decide) rfl rfl rfl).2.2.2 rfl).1,
   ((newTranscodeJob_saves_job sampleService sampleStore (sampleRequest "aws" "dir/file.mp4")
      sampleFactory sampleProvider ⟨"job-1", status.StatusQueued, ""⟩
      (by decide) (by decide) (by decide) rfl rfl rfl).2.2.2 rfl).2.1⟩

/-- Counterexample to C6 as stated: for the stored record `id-2`, whose
provider name has no factory, and for the stored record `id-1`, whose factory
fails with an invalid-configuration error, `getTranscodeJob` answers 500 where
`newTranscodeJob` answers 400 for the same registry, configuration and
provider name. -/
theorem getTranscodeJob_classifies_unlike_newTranscodeJob :
    (sampleService.db.GetJob sampleStore "id-2" = .ok ⟨"id-2", "retired", "job-3"⟩ ∧
     sampleService.providers "retired" = none ∧
     (getTranscodeJob sampleService sampleStore "id-2").code = 500 ∧
     (newTranscodeJob sampleService sampleStore
       (.ok (sampleRequest "retired" "dir/file.mp4"))).code = 400) ∧
    (sampleService.db.GetJob sampleStore "id-1" = .ok ⟨"id-1", "misconfigured", "job-2"⟩ ∧
     sampleService.providers "misconfigured" = some invalidConfigFactory ∧
     invalidConfigFactory sampleService.config
       = .fail none ⟨ErrDyn.InvalidConfigError, "invalid configuration"⟩ ∧
     (getTranscodeJob sampleService sampleStore "id-1").code = 500 ∧
     (newTranscodeJob sampleService sampleStore
       (.ok (sampleRequest "misconfigured" "dir/file.mp4"))).code = 400) :=
  ⟨⟨rfl, rfl, rfl, rfl⟩, ⟨rfl, rfl, rfl, rfl, rfl⟩⟩

/-- Instance of C6 as the code has it: for the stored record `id-4`, whose
provider name is empty and has no factory, the query is answered with 500
(no create-job request that passes field validation names that provider); for
the stored record `id-3`, whose factory fails with an error of another type
than `provider.InvalidConfigError`, both handlers answer 500. -/
theorem getTranscodeJob_provider_failure_witness :
    (retiredService.db.GetJob unnamedStore "id-4" = .ok ⟨"id-4", "", "job-5"⟩ ∧
     retiredService.providers "" = none ∧
     (getTranscodeJob retiredService unnamedStore "id-4").code = 500 ∧
     (getTranscodeJob retiredService unnamedStore "id-4").payload = none) ∧
    (sampleService.db.GetJob sampleStore "id-3" = .ok ⟨"id-3", "broken", "job-4"⟩ ∧
     (getTranscodeJob sampleService sampleStore "id-3").code = 500 ∧
     (newTranscodeJob sampleService sampleStore
       (.ok (sampleRequest "broken" "dir/file.mp4"))).code = 500 ∧
     (getTranscodeJob sampleService sampleStore "id-3").code
       = (newTranscodeJob sampleService sampleStore
           (.ok (sampleRequest "broken" "dir/file.mp4"))).code) :=
  ⟨⟨rfl, rfl,
    ((getTranscodeJob_provider_failure retiredService unnamedStore "id-4"
       ⟨"id-4", "", "job-5"⟩ rfl).1 rfl).1,
    ((getTranscodeJob_provider_failure retiredService unnamedStore "id-4"
       ⟨"id-4", "", "job-5"⟩ rfl).1 rfl).2.1⟩,
   ⟨rfl,
    ((getTranscodeJob_provider_failure sampleService sampleStore "id-3"
       ⟨"id-3", "broken", "job-4"⟩ rfl).2
       brokenFactory none ⟨ErrDyn.other, "no route to host"⟩ rfl rfl).1,
    (((getTranscodeJob_provider_failure sampleService sampleStore "id-3"
       ⟨"id-3", "broken", "job-4"⟩ rfl).2
       brokenFactory none ⟨ErrDyn.other, "no route to host"⟩ rfl rfl).2.2.2
       (sampleRequest "broken" "dir/file.mp4") rfl (by decide) (by decide) (by decide)).2.1
       (by decide),
    (((getTranscodeJob_provider_failure sampleService sampleStore "id-3"
       ⟨"id-3", "broken", "job-4"⟩ rfl).2
       brokenFactory none ⟨ErrDyn.other, "no route to host"⟩ rfl rfl).2.2.2
       (sampleRequest "broken" "dir/file.mp4") rfl (by decide) (by decide) (by decide)).2.2.2
       (by decide)⟩⟩

/-- Instance of C7: the query for the stored record `id-0` is answered with
200 and the status of the backend, with the provider name of the record. -/
theorem getTranscodeJob_success_witness :
    sampleService.db.GetJob sampleStore "id-0" = .ok ⟨"id-0", "aws", "job-1"⟩ ∧
    (getTranscodeJob sampleService sampleStore "id-0").code = 200 ∧
    (getTranscodeJob sampleService sampleStore "id-0").payload
      = some (.jobStatus ⟨"job-1", status.StatusFinished, "aws"⟩) :=
  ⟨rfl,
   ((getTranscodeJob_success sampleService sampleStore "id-0" ⟨"id-0", "aws", "job-1"⟩
      sampleFactory sampleProvider rfl rfl rfl).2
      ⟨"job-1", status.StatusFinished, ""⟩ rfl).1,
   ((getTranscodeJob_success sampleService sampleStore "id-0" ⟨"id-0", "aws", "job-1"⟩
      sampleFactory sampleProvider rfl rfl rfl).2
      ⟨"job-1", status.StatusFinished, ""⟩ rfl).2.2⟩

/-- Instance of C9: the input of `TestAWSTranscode`, the source `dir/file.mp4`
with the presets `93239832-0001` and `93239832-0002`. -/
theorem TranscodeWithPresets_job_input_witness :
    '/' ∉ "file.mp4".data ∧
    (sampleAWS.TranscodeWithPresets ("dir" ++ "/" ++ "file.mp4")
        ["93239832-0001", "93239832-0002"]).1 =
      [{ PipelineId := "mypipeline"
         Input := { Key := "dir/file.mp4" }
         Outputs := [⟨"93239832-0001", "dir/93239832-0001/file.mp4"⟩,
                     ⟨"93239832-0002", "dir/93239832-0002/file.mp4"⟩] }] :=
  ⟨by decide,
   (TranscodeWithPresets_job_input sampleAWS "dir" "file.mp4"
      ["93239832-0001", "93239832-0002"] (by decide) (by decide)).1⟩

end Instances

end VideoTranscoding
